import Mathlib

/-!
# Verification of the tachyon container-cache subsystem

A shallow embedding, in Lean 4, of the container discovery / enrichment /
cache code of the tachyon repository (`containers.go` and the parts of
`render.go` and `main.go` that drive it), together with theorems settling
the specification's claims about it.

Modelling conventions:
* Go byte strings that are parsed byte-by-byte are modelled as `List Char`;
  Go strings that are only stored or compared are modelled as `String`.
* Go `int` is modelled as `Int`, Go `float64` as `Rat` (exact arithmetic
  with the same formulas).
* Go maps are modelled as association lists (`List (key × value)`), with
  insert-or-replace and first-match lookup.
* Time instants are modelled as natural numbers (seconds); `time.Since t`
  at instant `now` is `now - t`.
* Each external data source (process facts, pseudo-files, spawned tools)
  is an explicit input: an `Except String α` value standing for the raw
  data the OS would hand the program, or an error.
-/

/-- `strings.Split(s, sep)` for a one-character separator, on character
lists: splits at every occurrence of `sep`, keeping empty segments. -/
def splitOnChar (sep : Char) : List Char → List (List Char)
  | [] => [[]]
  | c :: rest =>
    match splitOnChar sep rest with
    | [] => [[]]
    | h :: t => if c = sep then [] :: h :: t else (c :: h) :: t

/-- Split a character list at every character satisfying `p`, keeping
empty segments (helper for the `strings.Fields` model). -/
def splitOnPred (p : Char → Bool) : List Char → List (List Char)
  | [] => [[]]
  | c :: rest =>
    match splitOnPred p rest with
    | [] => [[]]
    | h :: t => if p c then [] :: h :: t else (c :: h) :: t

/-- `strings.Fields`: split on whitespace and drop the empty segments, so
only maximal non-whitespace runs remain. -/
def goFields (l : List Char) : List (List Char) :=
  (splitOnPred (fun c => c.isWhitespace) l).filter (fun f => !f.isEmpty)

/-- Value of an all-digit, non-empty character run; `none` otherwise. -/
def digitsToNat (l : List Char) : Option Nat :=
  if l.isEmpty then none
  else if l.all (fun c => c.isDigit) then
    some (l.foldl (fun a c => a * 10 + (c.toNat - '0'.toNat)) 0)
  else none

/-- `strconv.Atoi`: an optional sign followed by at least one digit. -/
def goAtoi : List Char → Option Int
  | '+' :: rest => (digitsToNat rest).map (fun n => (n : Int))
  | '-' :: rest => (digitsToNat rest).map (fun n => -(n : Int))
  | l => (digitsToNat l).map (fun n => (n : Int))

/-- `strings.TrimSpace` on character lists. -/
def trimChars (l : List Char) : List Char :=
  ((l.dropWhile (fun c => c.isWhitespace)).reverse.dropWhile
    (fun c => c.isWhitespace)).reverse

/-- `strings.TrimSpace` where the Go code trims an ordinary string. -/
def trimString (s : String) : String :=
  (trimChars s.toList).asString

/-- Whether an `Except` result is a success (Go: the error is `nil`). -/
def isOkE {α : Type} : Except String α → Bool
  | .ok _ => true
  | .error _ => false

/-- One open-file record (Go struct `LsofOutput`); its fields come from
byte-level parsing and are modelled as character lists.  The Go field
`Type` is rendered `Type'` because `Type` is reserved in Lean. -/
structure LsofOutput where
  Command : List Char
  PID : List Char
  User : List Char
  FD : List Char
  Type' : List Char
  Device : List Char
  SizeOff : List Char
  Node : List Char
  Name : List Char
deriving DecidableEq, Repr, Inhabited

/-- Go struct `NetworkUsage`: cumulative received/transmitted bytes. -/
structure NetworkUsage where
  ReceivedBytes : Int
  TransmittedBytes : Int
deriving DecidableEq, Repr, Inhabited

/-- Go struct `ProcessInfo`. -/
structure ProcessInfo where
  PID : Int
  User : String
  CPU : Rat
  MEM : Rat
  CMD : String
deriving DecidableEq, Repr

/-- Go struct `ResourceLimits` (placeholders, never populated). -/
structure ResourceLimits where
  CPULimit : Rat
  MemoryLimit : Int
  DiskIOLimit : Int
  NetworkLimit : Int
deriving DecidableEq, Repr

/-- Go struct `ResourceUsage`; the Go `map[string]int` for memory usage is
modelled as an association list. -/
structure ResourceUsage where
  CPUUsage : Rat
  MemoryUsage : List (String × Int)
  SwapUsage : Int
deriving DecidableEq, Repr

/-- Go struct `Container`: identity/lifecycle fields from discovery plus
the enrichment fields filled in by `PopulateContainer`. -/
structure Container where
  OciVersion : String
  ID : String
  PID : Int
  Status : String
  Bundle : String
  RootFS : String
  Created : String
  Annotations : List (String × String)
  Owner : String
  OpenFiles : List LsofOutput
  NetworkUsage : NetworkUsage
  MountedVolumes : List (List Char)
  ExposedPorts : List Int
  TopProcesses : List ProcessInfo
  SecurityProfiles : List String
  StartCommand : String
  ResourceLimits : ResourceLimits
  EnvVariables : List String
  ResourceUsage : ResourceUsage
deriving DecidableEq, Repr

/-- The Go zero value `Container{}`. -/
def zeroContainer : Container :=
  { OciVersion := "", ID := "", PID := 0, Status := "", Bundle := "",
    RootFS := "", Created := "", Annotations := [], Owner := "",
    OpenFiles := [], NetworkUsage := ⟨0, 0⟩, MountedVolumes := [],
    ExposedPorts := [], TopProcesses := [], SecurityProfiles := [],
    StartCommand := "", ResourceLimits := ⟨0, 0, 0, 0⟩, EnvVariables := [],
    ResourceUsage := ⟨0, [], 0⟩ }

/-- The Go zero value `LsofOutput{}`. -/
def lsofEmpty : LsofOutput := ⟨[], [], [], [], [], [], [], [], []⟩

/-- One non-`p` tag line of `lsof -F` output applied to the record under
construction (the non-`p` cases of the switch in `getOpenFiles`; unknown
tags fall through and change nothing). -/
def lsofTag (entry : LsofOutput) (tag : Char) (value : List Char) : LsofOutput :=
  match tag with
  | 'c' => { entry with Command := value }
  | 'u' => { entry with User := value }
  | 'f' => { entry with FD := value }
  | 't' => { entry with Type' := value }
  | 'D' => { entry with Device := value }
  | 's' => { entry with SizeOff := value }
  | 'i' => { entry with Node := value }
  | 'n' => { entry with Name := value }
  | _ => entry

/-- The line loop of `getOpenFiles`, including the final flush: lines of
length ≤ 1 are skipped; a `p` line flushes the accumulated record (when
its PID is set) and starts a new one; other tag lines update the current
record; after the last line a record with a set PID is flushed. -/
def lsofLoop (entries : List LsofOutput) (entry : LsofOutput) :
    List (List Char) → List LsofOutput
  | [] => if entry.PID = [] then entries else entries ++ [entry]
  | (tag :: v :: vs) :: rest =>
    if tag = 'p' then
      if entry.PID = [] then
        lsofLoop entries { entry with PID := v :: vs } rest
      else
        lsofLoop (entries ++ [entry]) { lsofEmpty with PID := v :: vs } rest
    else
      lsofLoop entries (lsofTag entry tag (v :: vs)) rest
  | _ :: rest => lsofLoop entries entry rest

/-- `getOpenFiles`'s parse of the tool output, already split into lines. -/
def getOpenFilesParse (lines : List (List Char)) : List LsofOutput :=
  lsofLoop [] lsofEmpty lines

/-- The line loop of `getContainerNetworkUsage`: a line contributes its
2nd and 10th whitespace-separated fields (0-indexed 1 and 9) when it has
more than 10 fields and both parse as integers; otherwise nothing.  The
Go indexing `fields[1]`/`fields[9]` is in bounds under the guard, so it
is modelled by the total `List.getD`. -/
def netDevLoop (rx tx : Int) : List (List Char) → Int × Int
  | [] => (rx, tx)
  | line :: rest =>
    let fields := goFields line
    if 10 < fields.length then
      match goAtoi (fields.getD 1 []), goAtoi (fields.getD 9 []) with
      | some r, some t => netDevLoop (rx + r) (tx + t) rest
      | _, _ => netDevLoop rx tx rest
    else netDevLoop rx tx rest

/-- `getContainerNetworkUsage`'s parse of the pseudo-file content, already
split into lines. -/
def getContainerNetworkUsageParse (lines : List (List Char)) : NetworkUsage :=
  ⟨(netDevLoop 0 0 lines).1, (netDevLoop 0 0 lines).2⟩

/-- One record of `gopsutil`'s per-process connection listing, restricted
to the two fields the code reads. -/
structure ConnStat where
  status : String
  laddrPort : Int
deriving DecidableEq, Repr

/-- `gopsutil`'s per-process memory info, restricted to the fields read. -/
structure MemInfo where
  rss : Int
  vms : Int
  swap : Int
deriving DecidableEq, Repr

/-- The OS-level data sources one container's enrichment reads, addressed
by its pid: each field is the raw data that source would yield, or the
error the call/read would fail with. -/
structure AdapterEnv where
  lsofOut : Except String (List Char)
  netDev : Except String (List Char)
  mounts : Except String (List Char)
  connections : Except String (List ConnStat)
  cmdline : Except String String
  attrCurrent : Except String (List Char)
  environ : Except String (List String)
  cpuTimes : Except String (Rat × Rat)
  memInfo : Except String MemInfo

/-- `getOpenFiles`: run the lsof-style tool and parse its tagged output
(the output is split on newlines before the line loop). -/
def getOpenFiles (env : AdapterEnv) : Except String (List LsofOutput) :=
  env.lsofOut.map (fun out => getOpenFilesParse (splitOnChar '\n' out))

/-- `getContainerNetworkUsage`: read `/proc/<pid>/net/dev` and sum the
received/transmitted columns. -/
def getContainerNetworkUsage (env : AdapterEnv) : Except String NetworkUsage :=
  env.netDev.map (fun content => getContainerNetworkUsageParse (splitOnChar '\n' content))

/-- `getContainerMountedVolumes`: read `/proc/<pid>/mounts`; each line is
split on single spaces and contributes its second field when it has more
than two fields. -/
def getContainerMountedVolumes (env : AdapterEnv) : Except String (List (List Char)) :=
  env.mounts.map (fun content =>
    (splitOnChar '\n' content).filterMap (fun line =>
      let parts := splitOnChar ' ' line
      if 2 < parts.length then some (parts.getD 1 []) else none))

/-- `getContainerExposedPorts`: every connection in state `LISTEN`
contributes its local port. -/
def getContainerExposedPorts (env : AdapterEnv) : Except String (List Int) :=
  env.connections.map (fun stats =>
    (stats.filter (fun stat => stat.status == "LISTEN")).map (fun stat => stat.laddrPort))

/-- `getContainerStartCommand`: the process command line, whitespace
trimmed. -/
def getContainerStartCommand (env : AdapterEnv) : Except String String :=
  env.cmdline.map (fun cmd => trimString cmd)

/-- `getContainerSecurityProfiles`: the content of
`/proc/<pid>/attr/current` split on commas, each token trimmed. -/
def getContainerSecurityProfiles (env : AdapterEnv) : Except String (List String) :=
  env.attrCurrent.map (fun content =>
    (splitOnChar ',' content).map (fun p => (trimChars p).asString))

/-- `getEnvironmentVariables`: the process environment as `KEY=VALUE`
strings. -/
def getEnvironmentVariables (env : AdapterEnv) : Except String (List String) :=
  env.environ

/-- `getContainerCPUUsage`: `(user + system) * 100` over the process CPU
times (cumulative, not normalised — a quirk the code keeps). -/
def getContainerCPUUsage (env : AdapterEnv) : Except String Rat :=
  env.cpuTimes.map (fun t => (t.1 + t.2) * 100)

/-- `getContainerMemoryDetails`: the `RSS` and `VMS` entries of the memory
map. -/
def getContainerMemoryDetails (env : AdapterEnv) : Except String (List (String × Int)) :=
  env.memInfo.map (fun m => [("RSS", m.rss), ("VMS", m.vms)])

/-- `getContainerSwapUsage`: the process swap figure.  Note: nothing in
the population path ever calls this function. -/
def getContainerSwapUsage (env : AdapterEnv) : Except String Int :=
  env.memInfo.map (fun m => m.swap)

/-- `getContainerResourceUsage`: assembles CPU and memory figures; the Go
composite literal omits `SwapUsage`, leaving it at the zero value `0`. -/
def getContainerResourceUsage (env : AdapterEnv) : Except String ResourceUsage :=
  match getContainerCPUUsage env with
  | .error e => .error ("error getting CPU usage: " ++ e)
  | .ok cpuUsage =>
    match getContainerMemoryDetails env with
    | .error e => .error ("error getting memory usage: " ++ e)
    | .ok memoryUsage =>
      .ok { CPUUsage := cpuUsage, MemoryUsage := memoryUsage, SwapUsage := 0 }

/-- The enrichment steps of `PopulateContainer`, in source order; used to
record which adapters a population pass actually invoked. -/
inductive EnrichStep
  | openFiles
  | networkUsage
  | mountedVolumes
  | exposedPorts
  | startCommand
  | securityProfiles
  | envVariables
  | resourceUsage
deriving DecidableEq, Repr

/-- The fixed order in which `PopulateContainer` invokes the adapters. -/
def enrichOrder : List EnrichStep :=
  [.openFiles, .networkUsage, .mountedVolumes, .exposedPorts,
   .startCommand, .securityProfiles, .envVariables, .resourceUsage]

/-- `PopulateContainer`: sequentially invoke each adapter, writing its
result into the container; on the first adapter error abort with a
wrapped error naming the step.  The second component instruments the
invocation trace: the steps attempted, in order. -/
def populateContainer (env : AdapterEnv) (c : Container) :
    Except String Container × List EnrichStep :=
  match getOpenFiles env with
  | .error e => (.error ("failed to get open files: " ++ e), [.openFiles])
  | .ok v1 =>
  let c1 := { c with OpenFiles := v1 }
  match getContainerNetworkUsage env with
  | .error e => (.error ("failed to get network usage: " ++ e),
      [.openFiles, .networkUsage])
  | .ok v2 =>
  let c2 := { c1 with NetworkUsage := v2 }
  match getContainerMountedVolumes env with
  | .error e => (.error ("failed to get mounted volumes: " ++ e),
      [.openFiles, .networkUsage, .mountedVolumes])
  | .ok v3 =>
  let c3 := { c2 with MountedVolumes := v3 }
  match getContainerExposedPorts env with
  | .error e => (.error ("failed to get exposed ports: " ++ e),
      [.openFiles, .networkUsage, .mountedVolumes, .exposedPorts])
  | .ok v4 =>
  let c4 := { c3 with ExposedPorts := v4 }
  match getContainerStartCommand env with
  | .error e => (.error ("failed to get start command: " ++ e),
      [.openFiles, .networkUsage, .mountedVolumes, .exposedPorts, .startCommand])
  | .ok v5 =>
  let c5 := { c4 with StartCommand := v5 }
  match getContainerSecurityProfiles env with
  | .error e => (.error ("failed to get security profiles: " ++ e),
      [.openFiles, .networkUsage, .mountedVolumes, .exposedPorts,
       .startCommand, .securityProfiles])
  | .ok v6 =>
  let c6 := { c5 with SecurityProfiles := v6 }
  match getEnvironmentVariables env with
  | .error e => (.error ("failed to get environment variables: " ++ e),
      [.openFiles, .networkUsage, .mountedVolumes, .exposedPorts,
       .startCommand, .securityProfiles, .envVariables])
  | .ok v7 =>
  let c7 := { c6 with EnvVariables := v7 }
  match getContainerResourceUsage env with
  | .error e => (.error ("failed to get resource usage: " ++ e), enrichOrder)
  | .ok v8 => (.ok { c7 with ResourceUsage := v8 }, enrichOrder)

/-- First-match lookup in the association-list model of the Go cache map
(`containerCache[pid]` without the zero-value default). -/
def alistLookup : List (String × Container) → String → Option Container
  | [], _ => none
  | (k2, v) :: rest, k => if k2 = k then some v else alistLookup rest k

/-- Insert-or-replace in the association-list model of the Go cache map
(`containerCache[key] = value`). -/
def alistInsert (k : String) (v : Container) :
    List (String × Container) → List (String × Container)
  | [] => [(k, v)]
  | (k2, v2) :: rest =>
    if k2 = k then (k, v) :: rest else (k2, v2) :: alistInsert k v rest

/-- The snapshot copy the cache's fast path returns: all cached values. -/
def cacheValues (m : List (String × Container)) : List Container :=
  m.map (fun kv => kv.2)

/-- The cache key of a container: `strconv.Itoa(container.PID)`. -/
def cacheKey (c : Container) : String := toString c.PID

/-- Insert every container of the pass into an existing map, by key (the
merge loop shared by `GetContainers`'s cache update and the refresher). -/
def mergeCache (m : List (String × Container)) (cs : List Container) :
    List (String × Container) :=
  cs.foldl (fun acc c => alistInsert (cacheKey c) c acc) m

/-- `containerCache = make(...)` followed by inserting the whole pass:
the wholesale replacement `GetContainers` performs on success. -/
def replaceCache (cs : List Container) : List (String × Container) :=
  mergeCache [] cs

/-- The package-level mutable state: the cache map and the last-refresh
timestamp. -/
structure CacheState where
  containerCache : List (String × Container)
  lastRefreshed : Nat
deriving DecidableEq, Repr

/-- The external world a discovery pass reads: the runc invocation's raw
output (or its execution error), the JSON decoder as an oracle on that
raw output, and the per-pid adapter sources. -/
structure DiscoveryEnv where
  runcOut : Except String (List Char)
  unmarshal : List Char → Except String (List Container)
  adapters : Int → AdapterEnv

/-- Instrumentation of one `GetContainers` call: how many times the
discovery slow path ran (0 or 1) and which pids the population loop
attempted, in order. -/
structure DiscoveryTrace where
  discoveryRuns : Nat
  populated : List Int
deriving DecidableEq, Repr

/-- The population loop of `GetContainers(populate=true)`: populate each
discovered container in sequence, aborting on the first error.  The
second component lists the pids whose population was attempted. -/
def populateAll (env : DiscoveryEnv) :
    List Container → Except String (List Container) × List Int
  | [] => (.ok [], [])
  | c :: rest =>
    match (populateContainer (env.adapters c.PID) c).1 with
    | .error e => (.error e, [c.PID])
    | .ok c2 =>
      match populateAll env rest with
      | (.error e, tr) => (.error e, c.PID :: tr)
      | (.ok cs, tr) => (.ok (c2 :: cs), c.PID :: tr)

/-- `GetContainers`: serve the snapshot when the last refresh is younger
than 10 seconds; otherwise run runc (error when execution fails, when the
output is empty, or when it does not decode), optionally populate every
entry (abort on first failure), and on success wholesale-replace the
cache and reset the timestamp. -/
def getContainers (env : DiscoveryEnv) (populate : Bool) (now : Nat)
    (st : CacheState) :
    Except String (List Container) × CacheState × DiscoveryTrace :=
  if now - st.lastRefreshed < 10 then
    (.ok (cacheValues st.containerCache), st, ⟨0, []⟩)
  else
    match env.runcOut with
    | .error e => (.error ("error executing runc command: " ++ e), st, ⟨1, []⟩)
    | .ok out =>
      if out.length = 0 then
        (.error "runc output is empty", st, ⟨1, []⟩)
      else
        match env.unmarshal out with
        | .error e =>
          (.error ("failed to unmarshal the runc output: " ++ e), st, ⟨1, []⟩)
        | .ok containers =>
          if populate then
            match populateAll env containers with
            | (.error e, tr) => (.error e, st, ⟨1, tr⟩)
            | (.ok cs, tr) => (.ok cs, ⟨replaceCache cs, now⟩, ⟨1, tr⟩)
          else
            (.ok containers, ⟨replaceCache containers, now⟩, ⟨1, []⟩)

/-- One tick of `StartCacheRefresh`'s goroutine: call
`GetContainers(true)`; on error keep the state as the call left it; on
success write every returned container into the cache by key and reset
the timestamp.  The trace of the inner call is passed through. -/
def cacheRefreshTick (env : DiscoveryEnv) (now : Nat) (st : CacheState) :
    CacheState × DiscoveryTrace :=
  match getContainers env true now st with
  | (.error _, st2, tr) => (st2, tr)
  | (.ok containers, st2, tr) =>
    (⟨mergeCache st2.containerCache containers, now⟩, tr)

/-- `GetContainerByID`: serve the cache entry when it exists and the last
refresh is younger than 20 seconds; otherwise parse the pid, run a bare
`GetContainers(false)`, populate and return the matching discovery entry
if any; when no entry matches, fall through to re-writing the previously
read cache value (the zero `Container` when none existed) under the
requested key, resetting the timestamp, and returning it without error. -/
def getContainerByID (env : DiscoveryEnv) (now : Nat) (st : CacheState)
    (pid : String) : Except String Container × CacheState :=
  let cached := alistLookup st.containerCache pid
  let container := cached.getD zeroContainer
  if cached.isSome = true ∧ now - st.lastRefreshed < 20 then
    (.ok container, st)
  else
    match goAtoi pid.toList with
    | none => (.error "invalid PID format", st)
    | some pidInt =>
      match getContainers env false now st with
      | (.error e, st2, _) => (.error e, st2)
      | (.ok containers, st2, _) =>
        match containers.find? (fun c2 => c2.PID == pidInt) with
        | some c2 =>
          match (populateContainer (env.adapters c2.PID) c2).1 with
          | .error e => (.error ("failed to populate container: " ++ e), st2)
          | .ok c3 => (.ok c3, st2)
        | none =>
          (.ok container, ⟨alistInsert pid container st2.containerCache, now⟩)

/-- What becomes of the UI process after `refreshTable` runs: either it
panicked (Go `panic`, terminating the process) or it rendered the table
rows. -/
inductive UiOutcome
  | panicked (msg : String)
  | rendered (rows : List (String × String × String × String))
deriving DecidableEq, Repr

/-- The row loop of `refreshTable`: each container renders a row of
PID/Owner/formatted-Created/Status cells; `time.Parse` of the `Created`
field is the oracle `timeParse` (`none` models a parse error, on which
the Go code panics). -/
def renderRows (timeParse : String → Option String) :
    List Container → Except String (List (String × String × String × String))
  | [] => .ok []
  | c :: rest =>
    match timeParse c.Created with
    | none => .error ("parsing time " ++ c.Created)
    | some formatted =>
      match renderRows timeParse rest with
      | .error e => .error e
      | .ok rows => .ok ((toString c.PID, c.Owner, formatted, c.Status) :: rows)

/-- `refreshTable` (the handler behind the UI's `r` key): call
`GetContainers(true)` and panic on error; otherwise render the rows,
panicking on a `Created` timestamp that does not parse. -/
def refreshTable (env : DiscoveryEnv) (timeParse : String → Option String)
    (now : Nat) (st : CacheState) : UiOutcome × CacheState :=
  match getContainers env true now st with
  | (.error e, st2, _) => (.panicked e, st2)
  | (.ok containers, st2, _) =>
    match renderRows timeParse containers with
    | .error e => (.panicked e, st2)
    | .ok rows => (.rendered rows, st2)

/-- Stated from the spec: one well-formed `p`-tag group of an lsof-style
tagged block, with one value line per tag. -/
structure LsofGroup where
  pid : List Char
  command : List Char
  user : List Char
  fd : List Char
  ftype : List Char
  device : List Char
  sizeoff : List Char
  node : List Char
  name : List Char
deriving DecidableEq, Repr

/-- The tag lines of one group, in tag order, each line being the tag
character followed by the value. -/
def renderGroup (g : LsofGroup) : List (List Char) :=
  ['p' :: g.pid, 'c' :: g.command, 'u' :: g.user, 'f' :: g.fd,
   't' :: g.ftype, 'D' :: g.device, 's' :: g.sizeoff, 'i' :: g.node,
   'n' :: g.name]

/-- A tagged block made of the given groups' lines, in order. -/
def renderGroups : List LsofGroup → List (List Char)
  | [] => []
  | g :: gs => renderGroup g ++ renderGroups gs

/-- The record the spec expects for one group: each field taken from the
group's own tag line (`p`→PID, `c`→Command, `u`→User, `f`→FD, `t`→Type,
`D`→Device, `s`→SizeOff, `i`→Node, `n`→Name). -/
def groupRecord (g : LsofGroup) : LsofOutput :=
  ⟨g.command, g.pid, g.user, g.fd, g.ftype, g.device, g.sizeoff, g.node,
   g.name⟩

/-- Running the line loop over one group's lines from a fresh record
updates the record to exactly that group's record. -/
theorem lsofLoop_group_fresh (entries : List LsofOutput) (g : LsofGroup)
    (rest : List (List Char)) (h : g.pid ≠ []) :
    lsofLoop entries lsofEmpty (renderGroup g ++ rest) =
      lsofLoop entries (groupRecord g) rest := by
  obtain ⟨pid, cmd, usr, fd, ty, dev, so, nd, nm⟩ := g
  cases pid with
  | nil => exact absurd rfl h
  | cons p0 ptl =>
    cases cmd <;> cases usr <;> cases fd <;> cases ty <;> cases dev <;>
      cases so <;> cases nd <;> cases nm <;> rfl

/-- Running the line loop over one group's lines flushes the previous
record (its PID being set) and builds exactly that group's record. -/
theorem lsofLoop_group_flush (entries : List LsofOutput) (entry : LsofOutput)
    (g : LsofGroup) (rest : List (List Char)) (he : entry.PID ≠ [])
    (h : g.pid ≠ []) :
    lsofLoop entries entry (renderGroup g ++ rest) =
      lsofLoop (entries ++ [entry]) (groupRecord g) rest := by
  obtain ⟨pid, cmd, usr, fd, ty, dev, so, nd, nm⟩ := g
  obtain ⟨ec, ep, eu, ef, et, ed, es, en, enm⟩ := entry
  cases pid with
  | nil => exact absurd rfl h
  | cons p0 ptl =>
    cases ep with
    | nil => exact absurd rfl he
    | cons e0 etl =>
      cases cmd <;> cases usr <;> cases fd <;> cases ty <;> cases dev <;>
        cases so <;> cases nd <;> cases nm <;> rfl

/-- Running the line loop over a whole block from a pending record with a
set PID yields that record followed by one record per group. -/
theorem lsofLoop_groups (gs : List LsofGroup) (entries : List LsofOutput)
    (entry : LsofOutput) (he : entry.PID ≠ [])
    (hgs : ∀ g ∈ gs, g.pid ≠ []) :
    lsofLoop entries entry (renderGroups gs) =
      entries ++ [entry] ++ gs.map groupRecord := by
  induction gs generalizing entries entry with
  | nil =>
    simp [renderGroups, lsofLoop, he]
  | cons g gs ih =>
    have hg : g.pid ≠ [] := hgs g (List.mem_cons_self g gs)
    have hrec : (groupRecord g).PID ≠ [] := hg
    rw [renderGroups, lsofLoop_group_flush entries entry g (renderGroups gs) he hg,
      ih (entries ++ [entry]) (groupRecord g) hrec
        (fun g2 hg2 => hgs g2 (List.mem_cons_of_mem g hg2))]
    simp

/-- A line of length at most 1 leaves the loop state untouched. -/
theorem lsofLoop_skips_short (entries : List LsofOutput) (entry : LsofOutput)
    (line : List Char) (rest : List (List Char)) (h : line.length ≤ 1) :
    lsofLoop entries entry (line :: rest) = lsofLoop entries entry rest := by
  match line with
  | [] => rfl
  | [c] => rfl
  | a :: b :: t => simp at h

/-- The parser maps a well-formed block of groups to exactly the groups'
records, including the final, unterminated group (flush-on-EOF). -/
theorem getOpenFilesParse_groups (gs : List LsofGroup)
    (hgs : ∀ g ∈ gs, g.pid ≠ []) :
    getOpenFilesParse (renderGroups gs) = gs.map groupRecord := by
  cases gs with
  | nil => rfl
  | cons g gs =>
    have hg : g.pid ≠ [] := hgs g (List.mem_cons_self g gs)
    have hrec : (groupRecord g).PID ≠ [] := hg
    rw [getOpenFilesParse, renderGroups,
      lsofLoop_group_fresh [] g (renderGroups gs) hg,
      lsofLoop_groups gs [] (groupRecord g) hrec
        (fun g2 hg2 => hgs g2 (List.mem_cons_of_mem g hg2))]
    simp

/-- Stated from the spec: the contribution of one net/dev line — its 2nd
and 10th whitespace-separated fields when the line has at least 11 fields
and both parse as integers; nothing otherwise. -/
def netDevLineContribution (line : List Char) : Option (Int × Int) :=
  let fields := goFields line
  if 10 < fields.length then
    match goAtoi (fields.getD 1 []), goAtoi (fields.getD 9 []) with
    | some r, some t => some (r, t)
    | _, _ => none
  else none

/-- The network-usage line loop computes exactly the sums of the per-line
contributions. -/
theorem netDevLoop_eq (lines : List (List Char)) : ∀ rx tx : Int,
    netDevLoop rx tx lines =
      (rx + ((lines.filterMap netDevLineContribution).map Prod.fst).sum,
       tx + ((lines.filterMap netDevLineContribution).map Prod.snd).sum) := by
  induction lines with
  | nil => intro rx tx; simp [netDevLoop]
  | cons line rest ih =>
    intro rx tx
    by_cases h : 10 < (goFields line).length
    · rcases hr : goAtoi ((goFields line)[1]?.getD []) with _ | r
      · simp [netDevLoop, netDevLineContribution, h, hr, ih]
      · rcases ht : goAtoi ((goFields line)[9]?.getD []) with _ | t
        · simp [netDevLoop, netDevLineContribution, h, hr, ht, ih]
        · simp [netDevLoop, netDevLineContribution, h, hr, ht, ih, Prod.ext_iff,
            List.filterMap_cons]
          constructor <;> ring
    · simp [netDevLoop, netDevLineContribution, h, ih]

/-- C5: for every well-formed lsof-style tagged block of N `p`-tag groups,
the open-files line loop yields exactly N records, each record's fields
taken from its own group's tag lines; the final, unterminated group is
still emitted (flush-on-EOF), and lines of length ≤ 1 are skipped. -/
theorem getOpenFiles_lineLoop_correct (gs : List LsofGroup)
    (hgs : ∀ g ∈ gs, g.pid ≠ []) :
    getOpenFilesParse (renderGroups gs) = gs.map groupRecord
  ∧ (getOpenFilesParse (renderGroups gs)).length = gs.length
  ∧ ∀ (entries : List LsofOutput) (entry : LsofOutput) (line : List Char)
      (rest : List (List Char)), line.length ≤ 1 →
      lsofLoop entries entry (line :: rest) = lsofLoop entries entry rest :=
  ⟨getOpenFilesParse_groups gs hgs,
   by rw [getOpenFilesParse_groups gs hgs]; simp,
   lsofLoop_skips_short⟩

/-- A concrete two-group lsof block for the C5 witness: the second group
has no terminating `p` line, so it exercises the flush-on-EOF path. -/
def lsofGroupA : LsofGroup :=
  ⟨"100".toList, "bash".toList, "0".toList, "1".toList, "REG".toList,
   "8".toList, "42".toList, "7".toList, "/tmp/x".toList⟩

/-- Second group of the C5 witness block. -/
def lsofGroupB : LsofGroup :=
  ⟨"200".toList, "sh".toList, "1000".toList, "2".toList, "CHR".toList,
   "1".toList, "0".toList, "3".toList, "/dev/null".toList⟩

/-- Witness for C5: the theorem applied to the concrete two-group block. -/
theorem getOpenFiles_lineLoop_correct_witness :
    (∀ g ∈ [lsofGroupA, lsofGroupB], g.pid ≠ [])
  ∧ getOpenFilesParse (renderGroups [lsofGroupA, lsofGroupB]) =
      [lsofGroupA, lsofGroupB].map groupRecord :=
  ⟨by decide,
   (getOpenFiles_lineLoop_correct [lsofGroupA, lsofGroupB] (by decide)).1⟩

/-- A concrete net/dev content for C6: one header line (fewer than 11
fields), one malformed line (11+ fields but a non-integer receive
column), one well-formed line. -/
def netDevExampleRaw : List Char :=
  ("Inter-| Receive | Transmit\n" ++
   "eth1: x 2 3 4 5 6 7 8 999 10 11\n" ++
   "eth0: 1000 2 3 4 5 6 7 8 2000 10 11").toList

set_option maxRecDepth 4096 in
/-- C6: the network-usage parser returns the sums, over exactly those
lines with at least 11 whitespace-separated fields whose 2nd and 10th
fields both parse as integers, of those two fields; and on the concrete
header/malformed/well-formed input it returns exactly the well-formed
line's values. -/
theorem getContainerNetworkUsage_sums :
    (∀ raw : List Char,
      getContainerNetworkUsageParse (splitOnChar '\n' raw) =
        ⟨(((splitOnChar '\n' raw).filterMap netDevLineContribution).map
            Prod.fst).sum,
         (((splitOnChar '\n' raw).filterMap netDevLineContribution).map
            Prod.snd).sum⟩)
  ∧ getContainerNetworkUsageParse (splitOnChar '\n' netDevExampleRaw) =
      ⟨1000, 2000⟩ := by
  constructor
  · intro raw
    rw [getContainerNetworkUsageParse, netDevLoop_eq]
    simp
  · decide

/-- C7: `PopulateContainer` invokes the adapters sequentially in the fixed
source order and aborts on the first adapter error with a wrapped error
naming the failing enrichment step, without invoking the remaining
adapters (the trace stops at the failing step); it succeeds exactly when
every adapter succeeds, and then the trace is the full order. -/
theorem populateContainer_failFast (env : AdapterEnv) (c : Container) :
    (∀ e, env.lsofOut = .error e →
      populateContainer env c =
        (.error ("failed to get open files: " ++ e), [.openFiles]))
  ∧ (∀ v1 e, env.lsofOut = .ok v1 → env.netDev = .error e →
      populateContainer env c =
        (.error ("failed to get network usage: " ++ e),
         [.openFiles, .networkUsage]))
  ∧ (∀ v1 v2 e, env.lsofOut = .ok v1 → env.netDev = .ok v2 →
      env.mounts = .error e →
      populateContainer env c =
        (.error ("failed to get mounted volumes: " ++ e),
         [.openFiles, .networkUsage, .mountedVolumes]))
  ∧ (∀ v1 v2 v3 e, env.lsofOut = .ok v1 → env.netDev = .ok v2 →
      env.mounts = .ok v3 → env.connections = .error e →
      populateContainer env c =
        (.error ("failed to get exposed ports: " ++ e),
         [.openFiles, .networkUsage, .mountedVolumes, .exposedPorts]))
  ∧ (∀ v1 v2 v3 v4 e, env.lsofOut = .ok v1 → env.netDev = .ok v2 →
      env.mounts = .ok v3 → env.connections = .ok v4 →
      env.cmdline = .error e →
      populateContainer env c =
        (.error ("failed to get start command: " ++ e),
         [.openFiles, .networkUsage, .mountedVolumes, .exposedPorts,
          .startCommand]))
  ∧ (∀ v1 v2 v3 v4 v5 e, env.lsofOut = .ok v1 → env.netDev = .ok v2 →
      env.mounts = .ok v3 → env.connections = .ok v4 →
      env.cmdline = .ok v5 → env.attrCurrent = .error e →
      populateContainer env c =
        (.error ("failed to get security profiles: " ++ e),
         [.openFiles, .networkUsage, .mountedVolumes, .exposedPorts,
          .startCommand, .securityProfiles]))
  ∧ (∀ v1 v2 v3 v4 v5 v6 e, env.lsofOut = .ok v1 → env.netDev = .ok v2 →
      env.mounts = .ok v3 → env.connections = .ok v4 →
      env.cmdline = .ok v5 → env.attrCurrent = .ok v6 →
      env.environ = .error e →
      populateContainer env c =
        (.error ("failed to get environment variables: " ++ e),
         [.openFiles, .networkUsage, .mountedVolumes, .exposedPorts,
          .startCommand, .securityProfiles, .envVariables]))
  ∧ (∀ v1 v2 v3 v4 v5 v6 v7 e, env.lsofOut = .ok v1 → env.netDev = .ok v2 →
      env.mounts = .ok v3 → env.connections = .ok v4 →
      env.cmdline = .ok v5 → env.attrCurrent = .ok v6 →
      env.environ = .ok v7 → env.cpuTimes = .error e →
      populateContainer env c =
        (.error ("failed to get resource usage: " ++
           ("error getting CPU usage: " ++ e)), enrichOrder))
  ∧ (∀ v1 v2 v3 v4 v5 v6 v7 v8 e, env.lsofOut = .ok v1 → env.netDev = .ok v2 →
      env.mounts = .ok v3 → env.connections = .ok v4 →
      env.cmdline = .ok v5 → env.attrCurrent = .ok v6 →
      env.environ = .ok v7 → env.cpuTimes = .ok v8 →
      env.memInfo = .error e →
      populateContainer env c =
        (.error ("failed to get resource usage: " ++
           ("error getting memory usage: " ++ e)), enrichOrder))
  ∧ (isOkE (populateContainer env c).1 = true ↔
      (isOkE env.lsofOut = true ∧ isOkE env.netDev = true ∧
       isOkE env.mounts = true ∧ isOkE env.connections = true ∧
       isOkE env.cmdline = true ∧ isOkE env.attrCurrent = true ∧
       isOkE env.environ = true ∧ isOkE env.cpuTimes = true ∧
       isOkE env.memInfo = true))
  ∧ (isOkE (populateContainer env c).1 = true →
      (populateContainer env c).2 = enrichOrder) := by
  refine ⟨?_, ?_, ?_, ?_, ?_, ?_, ?_, ?_, ?_, ?_, ?_⟩
  · intro e h1
    simp [populateContainer, getOpenFiles, h1, Except.map]
  · intro v1 e h1 h2
    simp [populateContainer, getOpenFiles, getContainerNetworkUsage, h1, h2,
      Except.map]
  · intro v1 v2 e h1 h2 h3
    simp [populateContainer, getOpenFiles, getContainerNetworkUsage,
      getContainerMountedVolumes, h1, h2, h3, Except.map]
  · intro v1 v2 v3 e h1 h2 h3 h4
    simp [populateContainer, getOpenFiles, getContainerNetworkUsage,
      getContainerMountedVolumes, getContainerExposedPorts, h1, h2, h3, h4,
      Except.map]
  · intro v1 v2 v3 v4 e h1 h2 h3 h4 h5
    simp [populateContainer, getOpenFiles, getContainerNetworkUsage,
      getContainerMountedVolumes, getContainerExposedPorts,
      getContainerStartCommand, h1, h2, h3, h4, h5, Except.map]
  · intro v1 v2 v3 v4 v5 e h1 h2 h3 h4 h5 h6
    simp [populateContainer, getOpenFiles, getContainerNetworkUsage,
      getContainerMountedVolumes, getContainerExposedPorts,
      getContainerStartCommand, getContainerSecurityProfiles, h1, h2, h3, h4,
      h5, h6, Except.map]
  · intro v1 v2 v3 v4 v5 v6 e h1 h2 h3 h4 h5 h6 h7
    simp [populateContainer, getOpenFiles, getContainerNetworkUsage,
      getContainerMountedVolumes, getContainerExposedPorts,
      getContainerStartCommand, getContainerSecurityProfiles,
      getEnvironmentVariables, h1, h2, h3, h4, h5, h6, h7, Except.map]
  · intro v1 v2 v3 v4 v5 v6 v7 e h1 h2 h3 h4 h5 h6 h7 h8
    simp [populateContainer, getOpenFiles, getContainerNetworkUsage,
      getContainerMountedVolumes, getContainerExposedPorts,
      getContainerStartCommand, getContainerSecurityProfiles,
      getEnvironmentVariables, getContainerResourceUsage,
      getContainerCPUUsage, getContainerMemoryDetails, h1, h2, h3, h4, h5, h6,
      h7, h8, Except.map]
  · intro v1 v2 v3 v4 v5 v6 v7 v8 e h1 h2 h3 h4 h5 h6 h7 h8 h9
    simp [populateContainer, getOpenFiles, getContainerNetworkUsage,
      getContainerMountedVolumes, getContainerExposedPorts,
      getContainerStartCommand, getContainerSecurityProfiles,
      getEnvironmentVariables, getContainerResourceUsage,
      getContainerCPUUsage, getContainerMemoryDetails, h1, h2, h3, h4, h5, h6,
      h7, h8, h9, Except.map]
  · obtain ⟨f1, f2, f3, f4, f5, f6, f7, f8, f9⟩ := env
    cases f1 <;> cases f2 <;> cases f3 <;> cases f4 <;> cases f5 <;>
      cases f6 <;> cases f7 <;> cases f8 <;> cases f9 <;>
      simp [populateContainer, getOpenFiles, getContainerNetworkUsage,
        getContainerMountedVolumes, getContainerExposedPorts,
        getContainerStartCommand, getContainerSecurityProfiles,
        getEnvironmentVariables, getContainerResourceUsage,
        getContainerCPUUsage, getContainerMemoryDetails, isOkE, Except.map]
  · obtain ⟨f1, f2, f3, f4, f5, f6, f7, f8, f9⟩ := env
    cases f1 <;> cases f2 <;> cases f3 <;> cases f4 <;> cases f5 <;>
      cases f6 <;> cases f7 <;> cases f8 <;> cases f9 <;>
      simp [populateContainer, getOpenFiles, getContainerNetworkUsage,
        getContainerMountedVolumes, getContainerExposedPorts,
        getContainerStartCommand, getContainerSecurityProfiles,
        getEnvironmentVariables, getContainerResourceUsage,
        getContainerCPUUsage, getContainerMemoryDetails, isOkE, Except.map]

/-- A bare container as discovery decodes it: identity fields only. -/
def bareContainer (pid : Int) : Container :=
  { zeroContainer with PID := pid, ID := toString pid, Status := "running" }

/-- A per-pid adapter environment on which every source succeeds, with
empty tool outputs, CPU times (0, 0), and memory info rss 4, vms 8,
swap 1234. -/
def adapterEnvAllOk : AdapterEnv :=
  { lsofOut := .ok [], netDev := .ok [], mounts := .ok [],
    connections := .ok [], cmdline := .ok "", attrCurrent := .ok [],
    environ := .ok [], cpuTimes := .ok (0, 0), memInfo := .ok ⟨4, 8, 1234⟩ }

/-- An adapter environment whose network-usage source fails. -/
def adapterEnvNetFail : AdapterEnv :=
  { adapterEnvAllOk with netDev := .error "net boom" }

/-- Witness for C7: the theorem applied to a concrete environment whose
second adapter source fails. -/
theorem populateContainer_failFast_witness :
    populateContainer adapterEnvNetFail zeroContainer =
      (.error ("failed to get network usage: " ++ "net boom"),
       [.openFiles, .networkUsage]) :=
  (populateContainer_failFast adapterEnvNetFail zeroContainer).2.1 [] "net boom"
    rfl rfl

/-- C9 (code-bug evidence): on a fully successful population pass over a
process whose memory info reports swap 1234, the resulting
`ResourceUsage` carries the CPU figure and the RSS/VMS memory map but its
`SwapUsage` is the zero value 0 — `getContainerResourceUsage` never
invokes `getContainerSwapUsage`, which would have returned 1234. -/
theorem populate_leavesSwapZero :
    (populateContainer adapterEnvAllOk zeroContainer).1.map
        (fun c2 => c2.ResourceUsage) =
      .ok ⟨((0 : Rat) + 0) * 100, [("RSS", 4), ("VMS", 8)], 0⟩
  ∧ getContainerSwapUsage adapterEnvAllOk = .ok 1234 :=
  ⟨rfl, rfl⟩

/-- A discovery environment whose runc invocation fails. -/
def discEnvRuncFails : DiscoveryEnv :=
  { runcOut := .error "boom", unmarshal := fun _ => .error "unused",
    adapters := fun _ => adapterEnvAllOk }

/-- C8 (code-bug evidence): with a stale cache and a failing runc
invocation, the `r`-key handler `refreshTable` panics with the fetch
error instead of treating it as "no data available" — a fetch error does
terminate the process. -/
theorem refreshTable_panicsOnFetchError :
    refreshTable discEnvRuncFails (fun _ => none) 50 ⟨[], 0⟩ =
      (.panicked ("error executing runc command: " ++ "boom"), ⟨[], 0⟩) :=
  rfl

/-- The population loop aborts at the first failing container: given that
the first `j` containers populate successfully and container `j` fails,
the loop returns an error and its attempted-pid trace is exactly the
first `j + 1` pids. -/
theorem populateAll_error (env : DiscoveryEnv) :
    ∀ (cs : List Container) (j : Nat) (hj : j < cs.length),
    (∀ c ∈ cs.take j, isOkE (populateContainer (env.adapters c.PID) c).1 = true) →
    isOkE (populateContainer (env.adapters (cs[j]).PID) cs[j]).1 = false →
    isOkE (populateAll env cs).1 = false ∧
      (populateAll env cs).2 = (cs.take (j + 1)).map (fun c => c.PID) := by
  intro cs
  induction cs with
  | nil => intro j hj; simp at hj
  | cons c rest ih =>
    intro j hj hok hfail
    cases j with
    | zero =>
      rcases hp : (populateContainer (env.adapters c.PID) c).1 with e | c2
      · constructor
        · simp [populateAll, hp, isOkE]
        · simp [populateAll, hp]
      · rw [List.getElem_cons_zero, hp] at hfail
        simp [isOkE] at hfail
    | succ k =>
      have hcok : isOkE (populateContainer (env.adapters c.PID) c).1 = true :=
        hok c (by simp)
      rcases hp : (populateContainer (env.adapters c.PID) c).1 with e | c2
      · rw [hp] at hcok; simp [isOkE] at hcok
      · have hj2 : k < rest.length := by simpa using hj
        have hok2 : ∀ c2 ∈ rest.take k,
            isOkE (populateContainer (env.adapters c2.PID) c2).1 = true := by
          intro c3 h3
          exact hok c3 (by
            rw [List.take_succ_cons]
            exact List.mem_cons_of_mem c h3)
        have hfail2 : isOkE (populateContainer
            (env.adapters (rest[k]).PID) rest[k]).1 = false := by
          simpa using hfail
        have hres := ih k hj2 hok2 hfail2
        rcases hq : populateAll env rest with ⟨r, tr⟩
        rw [hq] at hres
        rcases r with e | cs2
        · constructor
          · simp [populateAll, hp, hq, isOkE]
          · simp only [populateAll, hp, hq]
            rw [List.take_succ_cons, List.map_cons]
            exact congrArg (c.PID :: ·) hres.2
        · simp [isOkE] at hres

/-- C1: when the cache is stale and discovery decodes a container list in
which some container's population fails (all earlier ones succeeding),
`GetContainers(true)` returns an error, leaves the cache state (map and
timestamp) unchanged, and never attempts population of the containers
after the failing one. -/
theorem getContainers_abortOnPopulateFailure
    (env : DiscoveryEnv) (now : Nat) (st : CacheState) (out : List Char)
    (cs : List Container) (j : Nat)
    (hstale : ¬(now - st.lastRefreshed < 10))
    (hrunc : env.runcOut = .ok out)
    (hne : out.length ≠ 0)
    (hum : env.unmarshal out = .ok cs)
    (hj : j < cs.length)
    (hok : ∀ c ∈ cs.take j, isOkE (populateContainer (env.adapters c.PID) c).1 = true)
    (hfail : isOkE (populateContainer (env.adapters (cs[j]).PID) cs[j]).1 = false) :
    isOkE (getContainers env true now st).1 = false
  ∧ (getContainers env true now st).2.1 = st
  ∧ (getContainers env true now st).2.2 =
      ⟨1, (cs.take (j + 1)).map (fun c => c.PID)⟩ := by
  have h := populateAll_error env cs j hj hok hfail
  rcases hq : populateAll env cs with ⟨r, tr⟩
  rw [hq] at h
  rcases r with e | cs2
  · have h2 : tr = (cs.take (j + 1)).map (fun c => c.PID) := h.2
    rw [List.map_take] at h2
    refine ⟨?_, ?_, ?_⟩ <;>
      simp [getContainers, hstale, hrunc, hne, hum, hq, isOkE, h2]
  · simp [isOkE] at h

/-- Discovery environment for the C1 witness: two bare containers, the
first one's adapters all succeed, the second one's fail. -/
def discEnvC1 : DiscoveryEnv :=
  { runcOut := .ok "[x]".toList,
    unmarshal := fun _ => .ok [bareContainer 100, bareContainer 200],
    adapters := fun pid => if pid = 100 then adapterEnvAllOk else adapterEnvNetFail }

/-- Witness for C1: the spec's own scenario — pids 100 and 200, assembly
succeeds for 100 and fails for 200; the whole call errors and the cache
is untouched. -/
theorem getContainers_abortOnPopulateFailure_witness :
    isOkE (getContainers discEnvC1 true 50 ⟨[], 0⟩).1 = false
  ∧ (getContainers discEnvC1 true 50 ⟨[], 0⟩).2.1 = (⟨[], 0⟩ : CacheState)
  ∧ (getContainers discEnvC1 true 50 ⟨[], 0⟩).2.2 = ⟨1, [100, 200]⟩ :=
  getContainers_abortOnPopulateFailure discEnvC1 50 ⟨[], 0⟩ "[x]".toList
    [bareContainer 100, bareContainer 200] 1 (by decide) rfl (by decide) rfl
    (by decide) (by decide) (by decide)

/-- C10: for a pid string that parses as an integer, when the per-key
fast path does not apply (no cache entry, or last refresh ≥ 20 s ago) and
the pid is not among the containers the discovery call returns,
`GetContainerByID` returns the previously cached value for the key (the
zero `Container` when none existed) with no error, writes that value back
into the cache, and resets the last-refresh timestamp. -/
theorem getContainerByID_notFound
    (env : DiscoveryEnv) (now : Nat) (st : CacheState) (pid : String)
    (pidInt : Int) (cs : List Container) (st2 : CacheState)
    (tr : DiscoveryTrace)
    (hstale : ¬((alistLookup st.containerCache pid).isSome = true ∧
      now - st.lastRefreshed < 20))
    (hparse : goAtoi pid.toList = some pidInt)
    (hget : getContainers env false now st = (.ok cs, st2, tr))
    (hnf : ∀ c ∈ cs, c.PID ≠ pidInt) :
    getContainerByID env now st pid =
      (.ok ((alistLookup st.containerCache pid).getD zeroContainer),
       ⟨alistInsert pid ((alistLookup st.containerCache pid).getD zeroContainer)
          st2.containerCache, now⟩) := by
  have hfind : cs.find? (fun c2 => c2.PID == pidInt) = none := by
    apply List.find?_eq_none.mpr
    intro x hx
    simpa using hnf x hx
  have hparse2 : goAtoi pid.data = some pidInt := hparse
  simp [getContainerByID, hstale, hparse2, hget, hfind]

/-- Discovery environment for the C10 witness: discovery returns only
pid 100. -/
def discEnvC10 : DiscoveryEnv :=
  { runcOut := .ok "[y]".toList,
    unmarshal := fun _ => .ok [bareContainer 100],
    adapters := fun _ => adapterEnvAllOk }

/-- Witness for C10: empty stale cache, lookup of pid "7" which discovery
does not return — the zero container comes back error-free and is written
into the cache. -/
theorem getContainerByID_notFound_witness :
    getContainerByID discEnvC10 50 ⟨[], 0⟩ "7" =
      (.ok zeroContainer,
       ⟨[("100", bareContainer 100), ("7", zeroContainer)], 50⟩) :=
  getContainerByID_notFound discEnvC10 50 ⟨[], 0⟩ "7" 7
    [bareContainer 100] ⟨[("100", bareContainer 100)], 50⟩ ⟨1, []⟩
    (by decide) (by decide) rfl (by decide)

/-- When the last refresh is younger than 10 seconds, `GetContainers`
serves the cached snapshot, touches nothing, and runs no discovery. -/
theorem getContainers_fresh (env : DiscoveryEnv) (populate : Bool)
    (now : Nat) (st : CacheState) (h : now - st.lastRefreshed < 10) :
    getContainers env populate now st =
      (.ok (cacheValues st.containerCache), st, ⟨0, []⟩) := by
  simp [getContainers, h]

/-- When the cache is stale, `GetContainers` runs the discovery slow path
exactly once, whatever the outcome. -/
theorem getContainers_slow_runs (env : DiscoveryEnv) (populate : Bool)
    (now : Nat) (st : CacheState) (h : ¬(now - st.lastRefreshed < 10)) :
    (getContainers env populate now st).2.2.discoveryRuns = 1 := by
  rcases hr : env.runcOut with e | out
  · simp [getContainers, h, hr]
  · by_cases hz : out.length = 0
    · simp [getContainers, h, hr, hz]
    · rcases hu : env.unmarshal out with e | cs
      · simp [getContainers, h, hr, hz, hu]
      · rcases hb : populate with _ | _
        · simp [getContainers, h, hr, hz, hu]
        · rcases hp : populateAll env cs with ⟨r, tr⟩
          rcases r with e | cs2 <;> simp [getContainers, h, hr, hz, hu, hp]

/-- A refresher tick passes its inner `GetContainers` trace through. -/
theorem cacheRefreshTick_trace (env : DiscoveryEnv) (now : Nat)
    (st : CacheState) :
    (cacheRefreshTick env now st).2 = (getContainers env true now st).2.2 := by
  rcases hg : getContainers env true now st with ⟨r, st2, tr⟩
  rcases r with e | cs <;> simp [cacheRefreshTick, hg]

/-- A successful stale-path `GetContainers(true)` leaves the cache
wholesale-replaced by the pass's containers, timestamp reset. -/
theorem getContainers_true_ok_state (env : DiscoveryEnv) (now : Nat)
    (st : CacheState) (cs : List Container) (st2 : CacheState)
    (tr : DiscoveryTrace) (hstale : ¬(now - st.lastRefreshed < 10))
    (hget : getContainers env true now st = (.ok cs, st2, tr)) :
    st2 = ⟨replaceCache cs, now⟩ := by
  rcases hr : env.runcOut with e | out
  · simp [getContainers, hstale, hr] at hget
  · by_cases hz : out.length = 0
    · simp [getContainers, hstale, hr, hz] at hget
    · rcases hu : env.unmarshal out with e | cs0
      · simp [getContainers, hstale, hr, hz, hu] at hget
      · rcases hp : populateAll env cs0 with ⟨r, tr0⟩
        rcases r with e | cs2
        · simp [getContainers, hstale, hr, hz, hu, hp] at hget
        · simp [getContainers, hstale, hr, hz, hu, hp] at hget
          rw [← hget.2.1, hget.1]

/-- Inserting under one key does not change lookups of another key. -/
theorem alistLookup_insert_ne (a b : String) (v : Container)
    (m : List (String × Container)) (h : a ≠ b) :
    alistLookup (alistInsert a v m) b = alistLookup m b := by
  induction m with
  | nil => simp [alistInsert, alistLookup, h]
  | cons kv rest ih =>
    rcases kv with ⟨k3, v3⟩
    by_cases h3 : k3 = a
    · subst h3
      simp [alistInsert, alistLookup, h]
    · by_cases hb : k3 = b <;>
        simp [alistInsert, alistLookup, h3, hb, ih, Ne.symm h]

/-- Merging a pass whose keys all differ from `k` does not change the
lookup of `k`. -/
theorem mergeCache_lookup_notin (cs : List Container) (k : String)
    (hk : ∀ c ∈ cs, cacheKey c ≠ k) :
    ∀ m, alistLookup (mergeCache m cs) k = alistLookup m k := by
  induction cs with
  | nil => intro m; rfl
  | cons c rest ih =>
    intro m
    have hstep : mergeCache m (c :: rest) =
        mergeCache (alistInsert (cacheKey c) c m) rest := rfl
    rw [hstep, ih (fun c2 h2 => hk c2 (List.mem_cons_of_mem c h2)),
      alistLookup_insert_ne (cacheKey c) k c m (hk c (List.mem_cons_self c rest))]

/-- C4 (amended): after a successful refresher tick whose discovery pass
actually ran (stale cache), any key absent from the pass is gone — the
tick's own merge loop never deletes keys, but it merges into the cache
that `GetContainers` has already wholesale-replaced, so pre-existing
entries for containers no longer discovered are removed, not retained. -/
theorem cacheRefreshTick_dropsAbsent (env : DiscoveryEnv) (now : Nat)
    (st : CacheState) (k : String) (cs : List Container) (st2 : CacheState)
    (tr : DiscoveryTrace) (hstale : ¬(now - st.lastRefreshed < 10))
    (hget : getContainers env true now st = (.ok cs, st2, tr))
    (hk : ∀ c ∈ cs, cacheKey c ≠ k) :
    alistLookup ((cacheRefreshTick env now st).1).containerCache k = none := by
  have hst2 := getContainers_true_ok_state env now st cs st2 tr hstale hget
  simp only [cacheRefreshTick, hget, hst2]
  rw [mergeCache_lookup_notin cs k hk]
  exact mergeCache_lookup_notin cs k hk []

/-- A cache entry used by the freshness counterexamples. -/
def cachedC : Container := { zeroContainer with PID := 42, Status := "running" }

/-- A cache state whose last refresh (100) is 5 seconds before the
instant (105) the counterexamples use — fresh for the 10 s window. -/
def stFresh : CacheState := ⟨[("42", cachedC)], 100⟩

/-- A discovery environment that would succeed and return pid 43 if the
slow path ran. -/
def discEnvFresh : DiscoveryEnv :=
  { runcOut := .ok "[z]".toList,
    unmarshal := fun _ => .ok [bareContainer 43],
    adapters := fun _ => adapterEnvAllOk }

/-- C2 counterexample: with a cache refreshed 5 seconds ago, the
force-refresh entry point `GetContainers(true)` runs zero
Discovery+Assembler passes — it is served from the cache fast path, so it
does not bypass the freshness check. -/
theorem forceRefresh_fastPath_cex :
    (getContainers discEnvFresh true 105 stFresh).2.2.discoveryRuns = 0
  ∧ getContainers discEnvFresh true 105 stFresh =
      (.ok [cachedC], stFresh, ⟨0, []⟩) := ⟨rfl, rfl⟩

/-- C2 (amended): the force-refresh entry point `GetContainers(true)`
bypasses nothing: when the cache is fresh (last refresh < 10 s ago) it is
served from the cache with no discovery pass; only when the cache is
stale does it trigger exactly one full Discovery+Assembler pass. -/
theorem getContainersTrue_freshness (env : DiscoveryEnv) (now : Nat)
    (st : CacheState) :
    (now - st.lastRefreshed < 10 →
      getContainers env true now st =
        (.ok (cacheValues st.containerCache), st, ⟨0, []⟩))
  ∧ (¬(now - st.lastRefreshed < 10) →
      (getContainers env true now st).2.2.discoveryRuns = 1) :=
  ⟨getContainers_fresh env true now st,
   getContainers_slow_runs env true now st⟩

/-- Witness for the amended C2, at a fresh and at a stale instant. -/
theorem getContainersTrue_freshness_witness :
    getContainers discEnvFresh true 105 stFresh =
      (.ok (cacheValues stFresh.containerCache), stFresh, ⟨0, []⟩)
  ∧ (getContainers discEnvFresh true 50 ⟨[], 0⟩).2.2.discoveryRuns = 1 :=
  ⟨(getContainersTrue_freshness discEnvFresh 105 stFresh).1 (by decide),
   (getContainersTrue_freshness discEnvFresh 50 ⟨[], 0⟩).2 (by decide)⟩

/-- C3 counterexample: a refresher tick 5 seconds after the last refresh
performs no Discovery+Assembler pass at all — `GetContainers(true)`
serves it from the cache fast path and the tick merely re-inserts the
cached entries. -/
theorem periodicTick_fastPath_cex :
    ((cacheRefreshTick discEnvFresh 105 stFresh).2).discoveryRuns = 0
  ∧ (cacheRefreshTick discEnvFresh 105 stFresh).1 =
      ⟨[("42", cachedC)], 105⟩ := ⟨rfl, rfl⟩

/-- C3 (amended): a tick of the periodic refresher performs a full
Discovery+Assembler pass only when the cache is stale (last refresh
≥ 10 s ago); a tick within the freshness window runs zero passes. -/
theorem cacheRefreshTick_passIffStale (env : DiscoveryEnv) (now : Nat)
    (st : CacheState) :
    ((cacheRefreshTick env now st).2).discoveryRuns =
      if now - st.lastRefreshed < 10 then 0 else 1 := by
  rw [cacheRefreshTick_trace]
  by_cases h : now - st.lastRefreshed < 10
  · rw [if_pos h, getContainers_fresh env true now st h]
  · rw [if_neg h]
    exact getContainers_slow_runs env true now st h

/-- A stale cache state holding an entry for pid 200. -/
def st4 : CacheState := ⟨[("200", bareContainer 200)], 0⟩

/-- A discovery environment whose pass finds only pid 100 and whose
adapters all succeed. -/
def discEnvC4 : DiscoveryEnv :=
  { runcOut := .ok "[w]".toList,
    unmarshal := fun _ => .ok [bareContainer 100],
    adapters := fun _ => adapterEnvAllOk }

/-- The container pid 100 as populated from `adapterEnvAllOk` (the
`CPUUsage` field is kept in the unreduced form the code produces). -/
def c100pop : Container :=
  { bareContainer 100 with
    OpenFiles := [], NetworkUsage := ⟨0, 0⟩, MountedVolumes := [],
    ExposedPorts := [], StartCommand := trimString "",
    SecurityProfiles := [(trimChars []).asString], EnvVariables := [],
    ResourceUsage := ⟨((0 : Rat) + 0) * 100, [("RSS", 4), ("VMS", 8)], 0⟩ }

/-- C4 counterexample: the spec's own scenario — the cache holds pid 200,
a tick succeeds discovering only pid 100, and afterwards the pid 200
entry is gone, not retained. -/
theorem periodicTick_dropsExited_cex :
    alistLookup st4.containerCache "200" = some (bareContainer 200)
  ∧ alistLookup ((cacheRefreshTick discEnvC4 50 st4).1).containerCache "200" =
      none := ⟨rfl, rfl⟩

/-- Witness for the amended C4 at the concrete pid-100/pid-200 state. -/
theorem cacheRefreshTick_dropsAbsent_witness :
    alistLookup ((cacheRefreshTick discEnvC4 50 st4).1).containerCache "200" =
      none :=
  cacheRefreshTick_dropsAbsent discEnvC4 50 st4 "200" [c100pop]
    ⟨[("100", c100pop)], 50⟩ ⟨1, [100]⟩ (by decide) rfl (by decide)
